import Mathlib

/-!
Verification development for the `how3-chatbot` backend
(`src/backend/index.js`): a shallow embedding of the payment-session
store and the five endpoints that touch it
(`POST /api/create-checkout-session`, `GET /payment-success`,
`GET /api/payment-status/:sessionId`, `POST /api/transfer-sol`,
`POST /api/swap-tokens`), together with the priority-fee estimator
`getDynamicPriorityFee`.

Modelling conventions:
* JavaScript numbers are modelled as exact rationals (`ℚ`);
  `Math.round x` is `⌊x + 1/2⌋`, `Math.ceil` is `⌈·⌉`, and
  `Number.prototype.toFixed 8` is rounding to 8 decimal places.
* An absent (`undefined`) request field is `Option.none`; JavaScript
  truthiness of strings/numbers is modelled by `truthyStr` / `truthyNum`.
* External collaborators (price oracle, Stripe, the Solana RPC
  connection, the Jupiter quote/swap API) are inputs of the model:
  each call site receives the collaborator answer as data
  (`Option`/`Except` values, or attempt-indexed functions for the
  retried fetches).
* JavaScript number-to-string rendering inside human-readable message
  strings is approximated by the rational `toString`; no claim depends
  on digit rendering.
-/

/-- JavaScript `Math.round`: round half toward positive infinity. -/
def jsRound (q : ℚ) : ℤ := ⌊q + 1/2⌋

/-- Model of `parseFloat(x.toFixed(8))`: round to 8 decimal places. -/
def round8 (q : ℚ) : ℚ := (jsRound (q * 100000000) : ℚ) / 100000000

/-- JavaScript truthiness of an optional string: `undefined` and the
empty string are falsy. -/
def truthyStr : Option String → Bool
  | none => false
  | some s => !(s == "")

/-- JavaScript truthiness of an optional number: `undefined` and `0`
are falsy (`NaN` is not modelled). -/
def truthyNum : Option ℚ → Bool
  | none => false
  | some q => !(q == 0)

/-- Rendering of a possibly-undefined string inside a template literal:
JavaScript prints `undefined` for a missing value. -/
def optStr : Option String → String
  | none => "undefined"
  | some s => s

/-- Whether `needle` is a prefix of `hay` (character lists). -/
def startsWithChars : List Char → List Char → Bool
  | [], _ => true
  | _ :: _, [] => false
  | a :: as, b :: bs => a == b && startsWithChars as bs

/-- Whether `needle` occurs contiguously inside `hay` (character lists). -/
def containsChars (needle : List Char) : List Char → Bool
  | [] => startsWithChars needle []
  | b :: bs => startsWithChars needle (b :: bs) || containsChars needle bs

/-- JavaScript `hay.includes(needle)` on strings. -/
def strIncludes (hay needle : String) : Bool := containsChars needle.data hay.data

/-- `SOL_AMOUNT` (line 59): the fixed default transfer amount, 0.1 SOL. -/
def SOL_AMOUNT : ℚ := 1/10

/-! ## Payment session records and the in-memory session store -/

/-- A record of the `paymentSessions` map.  Fields that are only added
by later endpoint calls (signatures, explorer links, timestamps, swap
transaction ids) are `Option`s defaulting to `none`, mirroring fields
that are absent until assigned. -/
structure PaymentSession where
  id : String
  stripeSessionId : Option String := none
  walletAddress : String
  amount : ℚ
  currency : String
  status : String
  timestamp : String
  solAmount : ℚ
  isTokenSwap : Bool
  tokenSymbol : Option String := none
  tokenAddress : Option String := none
  tokenAmount : Option ℚ := none
  signature : Option String := none
  explorerLink : Option String := none
  solSignature : Option String := none
  solExplorerLink : Option String := none
  transferTimestamp : Option String := none
  transferredSolAmount : Option ℚ := none
  swapTxId : Option String := none
  transferTxId : Option String := none
  error : Option String := none
deriving DecidableEq

/-- The `paymentSessions` map, as an association list keyed by session id. -/
abbrev Store := List (String × PaymentSession)

/-- `paymentSessions.get(id)` (also covering `has(id)` via `isSome`). -/
def Store.get : Store → String → Option PaymentSession
  | [], _ => none
  | (k, v) :: t, id => if k == id then some v else Store.get t id

/-- `paymentSessions.set(id, v)`: overwrite the entry if present,
otherwise add it. -/
def Store.set : Store → String → PaymentSession → Store
  | [], id, v => [(id, v)]
  | (k, w) :: t, id, v => if k == id then (k, v) :: t else (k, w) :: Store.set t id v


/-! ## `getStatusMessage` (lines 65-80) -/

/-- `getStatusMessage(sessionData)`: human-readable status message. -/
def getStatusMessage (sessionData : PaymentSession) : String :=
  if sessionData.status = "created" then
    "Your payment is being processed."
  else if sessionData.status = "payment_completed" then
    "Payment received. Sending SOL to your wallet..."
  else if sessionData.status = "sol_transferred" then
    "SOL successfully sent to your wallet! View the transaction on Solana Explorer: " ++
      optStr sessionData.explorerLink
  else if sessionData.status = "token_swap_completed" then
    "Tokens successfully swapped and sent to your wallet! View the transaction on Solana Explorer: " ++
      optStr sessionData.explorerLink
  else if sessionData.status = "error" then
    "There was an error: " ++ optStr sessionData.error
  else
    "Processing your transaction..."

/-! ## `POST /api/create-checkout-session` (lines 92-254) -/

/-- Result of `getCurrentSolPrice` (lines 42-54): SOL price in USD and INR. -/
structure PriceData where
  usd : ℚ
  inr : ℚ
deriving DecidableEq

/-- The fields of the Stripe checkout session that the handler reads
back (`session.id`, `session.url`; `session.amount_total` and
`session.currency` echo the submitted `unit_amount`/`currency`). -/
structure StripeSession where
  id : String
  url : String
deriving DecidableEq

/-- Request body of `POST /api/create-checkout-session`. -/
structure CheckoutRequest where
  walletAddress : Option String := none
  email : Option String := none
  country : Option String := none
  dollarAmount : Option ℚ := none
  solAmount : Option ℚ := none
  tokenSymbol : Option String := none
  tokenAddress : Option String := none
  tokenAmount : Option ℚ := none
deriving DecidableEq

/-- External collaborators and ambient values consumed by one
`create-checkout-session` call: the price oracle answer, the
env-configured default prices, the Stripe call outcome (`none` models a
thrown Stripe error), the freshly generated unique session id, and the
current time rendered as an ISO string. -/
structure CheckoutEnv where
  solPrice : Option PriceData
  priceUSD : ℚ := 100
  priceINR : ℚ := 100
  stripe : Option StripeSession
  uniqueSessionId : String
  now : String

/-- ASCII whitespace matched by the `\s` class of the email regular
expression (the exotic Unicode members of `\s` are not modelled). -/
def isWsChar (c : Char) : Bool :=
  c == ' ' || c == '\t' || c == '\n' || c == '\r' || c == '\x0b' || c == '\x0c'

/-- A character matched by `[^\s@]`. -/
def emailAtomChar (c : Char) : Bool := !(isWsChar c || c == '@')

/-- Split a character list at its first `'@'`, if any. -/
def splitAtSign : List Char → Option (List Char × List Char)
  | [] => none
  | c :: t =>
    if c == '@' then some ([], t)
    else match splitAtSign t with
      | none => none
      | some (a, b) => some (c :: a, b)

/-- Whether some `'.'` occurs at a position of the list that is neither
first nor last. -/
def dotSplitAux : List Char → Bool
  | [] => false
  | [_] => false
  | c :: d :: t => (c == '.') || dotSplitAux (d :: t)

/-- Whether the part after `'@'` matches `[^\s@]+\.[^\s@]+`. -/
def dotSplitOk (cs : List Char) : Bool :=
  match cs with
  | [] => false
  | _ :: rest => dotSplitAux rest

/-- The email test `/^[^\s@]+@[^\s@]+\.[^\s@]+$/.test(email)` (line 102):
the string splits as `A@B.C` with `A`, `B`, `C` nonempty runs of
non-whitespace, non-`@` characters. -/
def emailFormatOk (s : String) : Bool :=
  match splitAtSign s.data with
  | none => false
  | some (localPart, rest) =>
    !localPart.isEmpty && localPart.all emailAtomChar &&
      rest.all emailAtomChar && dotSplitOk rest

/-- The country-code gate (line 107): rejects a truthy country value
whose length is not 2 (the `typeof` arm cannot fire for a string). -/
def countryGateFails (country : Option String) : Bool :=
  truthyStr country && !((country.getD "").length == 2)

/-- JavaScript `x || null` for an optional string (falsy becomes null). -/
def orNullStr (t : Option String) : Option String :=
  if truthyStr t then t else none

/-- JavaScript `x || null` for an optional number (falsy becomes null). -/
def orNullNum (t : Option ℚ) : Option ℚ :=
  if truthyNum t then t else none

/-- Successful JSON response of `create-checkout-session` (lines 239-248). -/
structure CheckoutResponse where
  url : String
  solAmount : ℚ
  fiatAmount : ℚ
  fiatCurrency : String
  sessionId : String
  isTokenSwap : Bool
  tokenSymbol : Option String
  tokenAmount : Option ℚ
deriving DecidableEq

/-- Result of one `create-checkout-session` call. -/
inductive CheckoutResult where
  | badRequest (error : String)
  | serverError (error : String)
  | ok (resp : CheckoutResponse)
deriving DecidableEq

/-- Handler of `POST /api/create-checkout-session` (lines 92-254).
The Stripe line-item display strings (`productName`,
`productDescription`) and the success/cancel URLs are presentation-only
payloads of the outbound Stripe call and are not modelled; the
`!backendUrl || !frontendUrl` check (line 164) cannot fire because both
values default to nonempty strings. -/
def createCheckoutSession (env : CheckoutEnv) (req : CheckoutRequest) (store : Store) :
    CheckoutResult × Store :=
  if !truthyStr req.walletAddress then
    (.badRequest "Missing or invalid walletAddress", store)
  else if truthyStr req.email && !emailFormatOk (req.email.getD "") then
    (.badRequest "Invalid email format", store)
  else if countryGateFails req.country then
    (.badRequest "Invalid country code", store)
  else
    match env.solPrice with
    | none => (.serverError "Unable to fetch current SOL price", store)
    | some solPrice =>
      let currency : String := if req.country = some "IN" then "inr" else "usd"
      let rate : ℚ := if req.country = some "IN" then solPrice.inr else solPrice.usd
      let defaultAmount : ℚ := if req.country = some "IN" then env.priceINR else env.priceUSD
      let resolved : ℚ × ℚ :=
        if truthyNum req.solAmount ∧ 0 < req.solAmount.getD 0 then
          -- Case 1: explicit SOL amount
          ((jsRound (req.solAmount.getD 0 * rate * 100) : ℚ), req.solAmount.getD 0)
        else if truthyNum req.dollarAmount ∧ 0 < req.dollarAmount.getD 0 then
          -- Case 2: explicit fiat amount
          let amount : ℚ := (jsRound (req.dollarAmount.getD 0 * 100) : ℚ)
          (amount, (amount / 100) / rate)
        else
          -- Case 3: defaults
          (defaultAmount, (defaultAmount / 100) / rate)
      let amount := resolved.1
      if ¬ (0 < amount) then (.serverError "Invalid price configuration", store)
      else
        let finalSolAmount := round8 resolved.2
        let isTokenSwap := truthyStr req.tokenSymbol
        match env.stripe with
        | none => (.serverError "Could not create checkout session", store)
        | some stripeSession =>
          let record : PaymentSession := {
            id := env.uniqueSessionId
            stripeSessionId := some stripeSession.id
            walletAddress := req.walletAddress.getD ""
            amount := amount
            currency := currency
            status := "created"
            timestamp := env.now
            solAmount := finalSolAmount
            isTokenSwap := isTokenSwap
            tokenSymbol := orNullStr req.tokenSymbol
            tokenAddress := orNullStr req.tokenAddress
            tokenAmount := orNullNum req.tokenAmount }
          (.ok {
              url := stripeSession.url
              solAmount := finalSolAmount
              fiatAmount := amount / 100
              fiatCurrency := currency
              sessionId := env.uniqueSessionId
              isTokenSwap := isTokenSwap
              tokenSymbol := orNullStr req.tokenSymbol
              tokenAmount := orNullNum req.tokenAmount },
            store.set env.uniqueSessionId record)

/-! ## `GET /payment-success` (lines 257-347) -/

/-- Query parameters of `GET /payment-success`. -/
structure PaymentSuccessQuery where
  session_id : Option String := none
  wallet : Option String := none
  amount : Option ℚ := none
  token_swap : Option String := none
  token_symbol : Option String := none
  token_address : Option String := none
deriving DecidableEq

/-- The local `sessionData` object built by the handler; its contents
feed the `PAYMENT_COMPLETE` message posted by the returned HTML page. -/
structure SessionDataView where
  walletAddress : String
  status : String
  amount : ℚ
  sessionId : String
  isTokenSwap : Bool
  tokenSymbol : Option String
  tokenAddress : Option String
  solAmount : Option ℚ := none
  tokenAmount : Option ℚ := none
deriving DecidableEq

/-- Handler of `GET /payment-success` (lines 257-347).  It assembles a
local `sessionData` object — reading, but never writing, the stored
session — and responds with an HTML page carrying those values; the
returned store is the store component of the handler effect. -/
def paymentSuccess (q : PaymentSuccessQuery) (store : Store) :
    SessionDataView × Store :=
  let base : SessionDataView := {
    walletAddress := if truthyStr q.wallet then q.wallet.getD "" else "unknown"
    status := "payment_completed"
    amount := if truthyNum q.amount then q.amount.getD 0 else 1/10
    sessionId := if truthyStr q.session_id then q.session_id.getD "" else ""
    isTokenSwap := false
    tokenSymbol := some (if truthyStr q.token_symbol then q.token_symbol.getD "" else "")
    tokenAddress := some (if truthyStr q.token_address then q.token_address.getD "" else "") }
  let fallback : SessionDataView :=
    if truthyStr q.token_swap then
      { base with
          isTokenSwap := q.token_swap = some "true"
          tokenSymbol := q.token_symbol
          tokenAddress := q.token_address }
    else base
  let view : SessionDataView :=
    if truthyStr q.session_id then
      match store.get (q.session_id.getD "") with
      | some storedSession =>
        { base with
            status := "payment_completed"
            solAmount := some storedSession.solAmount
            isTokenSwap := storedSession.isTokenSwap
            tokenSymbol := storedSession.tokenSymbol
            tokenAddress := storedSession.tokenAddress
            tokenAmount := storedSession.tokenAmount }
      | none => fallback
    else fallback
  (view, store)

/-! ## `GET /api/payment-status/:sessionId` (lines 350-399) -/

/-- The fields of a Stripe checkout session read by the fallback branch
of `payment-status`. -/
structure StripeStored where
  id : String
  status : String
  amount_total : ℚ
  currency : String
  metaWalletAddress : Option String := none
  metaSolAmount : Option String := none
  metaIsTokenSwap : Option String := none
  metaTokenSymbol : Option String := none
  metaTokenAddress : Option String := none
  metaTokenAmount : Option String := none
deriving DecidableEq

/-- External collaborator of `payment-status`: the outcome of
`stripe.checkout.sessions.retrieve` (`Except.error` models a thrown
error, `Except.ok none` a missing session). -/
structure StatusEnv where
  stripeRetrieve : Except String (Option StripeStored)

/-- JSON response of the Stripe fallback branch (lines 382-394). -/
structure StripeStatusView where
  id : String
  status : String
  amount : ℚ
  currency : String
  walletAddress : String
  solAmount : String
  isTokenSwap : Bool
  tokenSymbol : Option String
  tokenAddress : Option String
  tokenAmount : Option String
  message : String
deriving DecidableEq

/-- Result of one `payment-status` call. -/
inductive StatusResult where
  | cached (sess : PaymentSession) (explorerLink : Option String) (message : String)
  | fromStripe (v : StripeStatusView)
  | notFound (error : String)
  | failed (error : String)
deriving DecidableEq

/-- Handler of `GET /api/payment-status/:sessionId` (lines 350-399). -/
def paymentStatus (env : StatusEnv) (sessionId : String) (store : Store) :
    StatusResult × Store :=
  match store.get sessionId with
  | some sessionData =>
    (.cached sessionData sessionData.explorerLink (getStatusMessage sessionData), store)
  | none =>
    match env.stripeRetrieve with
    | .error _ => (.failed "Failed to retrieve payment status", store)
    | .ok none => (.notFound "Session not found", store)
    | .ok (some session) =>
      (.fromStripe {
          id := session.id
          status := session.status
          amount := session.amount_total
          currency := session.currency
          walletAddress := session.metaWalletAddress.getD "unknown"
          solAmount := session.metaSolAmount.getD "0.1"
          isTokenSwap := session.metaIsTokenSwap = some "true"
          tokenSymbol := session.metaTokenSymbol
          tokenAddress := session.metaTokenAddress
          tokenAmount := session.metaTokenAmount
          message := "Your payment was successful. Processing your transaction..." },
        store)

/-! ## `POST /api/transfer-sol` (lines 402-549) -/

/-- Request body of `POST /api/transfer-sol`.  `amount` defaults to
`SOL_AMOUNT` and `retryCount` to `0` when absent. -/
structure TransferRequest where
  walletAddress : Option String := none
  amount : Option ℚ := none
  sessionId : Option String := none
  retryCount : Option ℚ := none
deriving DecidableEq

/-- External collaborators of one `transfer-sol` call: whether the
funding keypair was initialised at startup, whether a string parses as
a `PublicKey`, the outcome of the blockhash-fetch/sign/broadcast block
as a function of the lamport amount (`Except.error` carries the thrown
message of the thrown error), and the current time. -/
structure TransferEnv where
  fundingInitialized : Bool
  validAddress : String → Bool
  broadcast : ℤ → Except String String
  now : String

/-- An error JSON body: HTTP status plus the fields the handler sets
(absent fields are `none`). -/
structure ErrorBody where
  httpStatus : ℕ
  error : String
  details : Option String := none
  retryScheduled : Option Bool := none
  retryCount : Option ℚ := none
deriving DecidableEq

/-- Result of one `transfer-sol` call. -/
inductive TransferResult where
  | err (body : ErrorBody)
  | success (transaction : String) (explorerLink : String) (amount : ℚ) (message : String)
deriving DecidableEq

/-- The transient-error test of the broadcast catch block (lines
523-526): the error message contains one of the retryable markers. -/
def isTransientTxError (msg : String) : Bool :=
  strIncludes msg "BlockheightExceededError" ||
    strIncludes msg "TimeoutError" ||
    strIncludes msg "block height exceeded"

/-- Handler of `POST /api/transfer-sol` (lines 402-549). -/
def transferSol (env : TransferEnv) (req : TransferRequest) (store : Store) :
    TransferResult × Store :=
  let amount : ℚ := req.amount.getD SOL_AMOUNT
  let retryCount : ℚ := req.retryCount.getD 0
  if !truthyStr req.walletAddress then
    (.err { httpStatus := 400, error := "Wallet address is required" }, store)
  else if !env.fundingInitialized then
    (.err { httpStatus := 500,
            error := "Funding wallet not initialized. Check FUNDING_WALLET_SECRET environment variable." },
      store)
  else if !env.validAddress (req.walletAddress.getD "") then
    (.err { httpStatus := 400,
            error := "Invalid wallet address: " ++ req.walletAddress.getD "" }, store)
  else if ¬ (0 < amount) then
    (.err { httpStatus := 400, error := "Invalid amount: " ++ toString amount }, store)
  else
    let lamports : ℤ := jsRound (amount * 1000000000)
    match env.broadcast lamports with
    | .ok signature =>
      let explorerLink := "https://solscan.io/tx/" ++ signature
      let store' : Store :=
        if truthyStr req.sessionId then
          match store.get (req.sessionId.getD "") with
          | some session =>
            let session' :=
              if session.isTokenSwap then
                { session with
                    status := "sol_received"
                    solSignature := some signature
                    solExplorerLink := some explorerLink
                    transferTimestamp := some env.now
                    transferredSolAmount := some amount }
              else
                { session with
                    status := "sol_transferred"
                    signature := some signature
                    explorerLink := some explorerLink
                    transferTimestamp := some env.now
                    transferredSolAmount := some amount }
            store.set (req.sessionId.getD "") session'
          | none => store
        else store
      (.success signature explorerLink amount
          ("SOL transfer of " ++ toString amount ++
            " initiated successfully. Transaction sent to network."),
        store')
    | .error msg =>
      if isTransientTxError msg ∧ retryCount < 3 then
        (.err { httpStatus := 500,
                error := "Transaction failed but will be retried automatically",
                retryScheduled := some true
                retryCount := some (retryCount + 1) }, store)
      else
        (.err { httpStatus := 500,
                error := "Transaction failed: " ++ msg,
                details := some msg }, store)

/-! ## `getDynamicPriorityFee` (lines 598-624) -/

/-- One entry returned by `connection.getRecentPrioritizationFees()`. -/
structure FeeObservation where
  slot : ℤ
  prioritizationFee : ℤ
deriving DecidableEq

/-- `getDynamicPriorityFee(connection)` (lines 598-624).  The sampling
outcome of the sampling call is the input: `Except.error` models a thrown error.
Both JavaScript `sort` calls are stable, so they are modelled by
insertion sort with the corresponding total preorders. -/
def getDynamicPriorityFee (sample : Except String (List FeeObservation)) : ℤ :=
  match sample with
  | .error _ => 200000
  | .ok priorityFees =>
    if 0 < priorityFees.length then
      let sorted := priorityFees.insertionSort (fun a b => b.slot ≤ a.slot)
      let recentFees := (sorted.take 5).map (·.prioritizationFee)
      let medianFee := (recentFees.insertionSort (· ≤ ·)).getD (recentFees.length / 2) 0
      let suggestedFee : ℤ := ⌈(medianFee : ℚ) * (12/10)⌉
      min (max suggestedFee 100000) 1000000
    else 200000

/-! ## `POST /api/swap-tokens` (lines 627-954) -/

/-- The fields of the Jupiter quote response that the handler reads. -/
structure QuoteData where
  outAmount : ℚ
  outputDecimals : Option ℕ := none
deriving DecidableEq

/-- Request body of `POST /api/swap-tokens`. -/
structure SwapRequest where
  walletAddress : Option String := none
  sessionId : Option String := none
  toToken : Option String := none
  amount : Option ℚ := none
deriving DecidableEq

/-- External collaborators of one `swap-tokens` call.  The two Jupiter
fetches are indexed by attempt number (a `while` loop retries them);
`sendSwapTx` is the outcome of deserialising/signing/broadcasting the
swap transaction, `sendTransferTx` that of the follow-up token
transfer, and `accountMissing` records whether `getAccountInfo` found
no token account for the recipient. -/
structure SwapEnv where
  fundingInitialized : Bool
  validAddress : String → Bool
  quoteFetch : ℕ → Except String QuoteData
  swapFetch : ℕ → Except String String
  sendSwapTx : Except String String
  sendTransferTx : Except String String
  accountMissing : Bool

/-- One entry of the `transactions` array of a successful swap response. -/
structure SwapTxInfo where
  id : String
  type : String
  status : String
  description : String
  explorerLink : String
  tokenAccountCreated : Option Bool := none
deriving DecidableEq

/-- Result of one `swap-tokens` call. -/
inductive SwapResult where
  | err (body : ErrorBody)
  | success (transactions : List SwapTxInfo) (finalTokenSymbol : String)
      (finalTokenMint : String) (finalTokenAmount : ℚ) (message : String)
deriving DecidableEq

/-- The retry `while` loop shared by the two Jupiter fetches (lines
689-717 and 734-769): `calls` attempts were already made and `fuel`
attempts remain of the cap.  Returns the loop outcome and the total
number of fetch calls made. -/
def retryLoop {α : Type} (f : ℕ → Except String α) : ℕ → ℕ → Except String α × ℕ
  | calls, 0 => (.error "", calls)
  | calls, fuel + 1 =>
    match f calls with
    | .ok a => (.ok a, calls + 1)
    | .error e =>
      if fuel = 0 then (.error e, calls + 1)
      else retryLoop f (calls + 1) fuel

/-- Handler of `POST /api/swap-tokens` (lines 627-954).  The derived
associated-token-account address in the response is an external SDK
computation and is not modelled. -/
def swapTokens (env : SwapEnv) (req : SwapRequest) (store : Store) :
    SwapResult × Store :=
  if !truthyStr req.walletAddress then
    (.err { httpStatus := 400, error := "Wallet address is required" }, store)
  else if !truthyStr req.toToken then
    (.err { httpStatus := 400, error := "Destination token address is required" }, store)
  else if ¬ (truthyNum req.amount = true ∧ 0 < req.amount.getD 0) then
    (.err { httpStatus := 400, error := "Valid SOL amount is required" }, store)
  else if !env.fundingInitialized then
    (.err { httpStatus := 500,
            error := "Funding wallet not initialized. Check FUNDING_WALLET_SECRET environment variable." },
      store)
  else
    let sessionInfo : Option PaymentSession :=
      if truthyStr req.sessionId then store.get (req.sessionId.getD "") else none
    if !env.validAddress (req.walletAddress.getD "") then
      (.err { httpStatus := 400,
              error := "Invalid wallet address: " ++ req.walletAddress.getD "" }, store)
    else
      match (retryLoop env.quoteFetch 0 3).1 with
      | .error _ =>
        (.err { httpStatus := 503, error := "Jupiter API unavailable",
                details := some "Could not get a quote from Jupiter exchange after multiple attempts." },
          store)
      | .ok quoteData =>
        let outputDecimals : ℕ :=
          match quoteData.outputDecimals with
          | none => 6
          | some d => if d = 0 then 6 else d
        let outputAmount : ℚ := quoteData.outAmount / 10 ^ outputDecimals
        let tokenSymbol : String :=
          if truthyStr (sessionInfo.bind (·.tokenSymbol)) then
            (sessionInfo.bind (·.tokenSymbol)).getD ""
          else "Token"
        match (retryLoop env.swapFetch 0 3).1 with
        | .error _ =>
          (.err { httpStatus := 503, error := "Jupiter API unavailable",
                  details := some "Could not get a swap transaction from Jupiter exchange after multiple attempts." },
            store)
        | .ok _swapTransaction =>
          match env.sendSwapTx with
          | .error m =>
            (.err { httpStatus := 500, error := "Failed to execute swap", details := some m },
              store)
          | .ok swapTxId =>
            match env.sendTransferTx with
            | .error m =>
              (.err { httpStatus := 500, error := "Failed to execute swap", details := some m },
                store)
            | .ok transferTxId =>
              let store' : Store :=
                match sessionInfo with
                | some si =>
                  store.set (req.sessionId.getD "")
                    { si with
                        swapTxId := some swapTxId
                        transferTxId := some transferTxId
                        tokenAmount := some outputAmount
                        status := "completed" }
                | none => store
              (.success
                  [ { id := swapTxId, type := "swap", status := "SENT"
                      description := "Swapped " ++ toString (req.amount.getD 0) ++ " SOL to " ++
                        toString outputAmount ++ " " ++ tokenSymbol
                      explorerLink := "https://solscan.io/tx/" ++ swapTxId },
                    { id := transferTxId, type := "transfer", status := "SENT"
                      description := "Transferred " ++ toString outputAmount ++ " " ++
                        tokenSymbol ++ " to your wallet"
                      explorerLink := "https://solscan.io/tx/" ++ transferTxId
                      tokenAccountCreated := some env.accountMissing } ]
                  tokenSymbol (req.toToken.getD "") outputAmount
                  ("Successfully processed SOL to " ++ tokenSymbol ++
                    " swap and transfer to your wallet."),
                store')

/-! ## The endpoints as transitions of the session store -/

/-- One call to any of the five endpoints that can read or write the
session store, with the answers of its external collaborators. -/
inductive ApiCall where
  | createCheckout (env : CheckoutEnv) (req : CheckoutRequest)
  | checkSuccess (q : PaymentSuccessQuery)
  | checkStatus (env : StatusEnv) (sessionId : String)
  | transfer (env : TransferEnv) (req : TransferRequest)
  | swap (env : SwapEnv) (req : SwapRequest)

/-- The effect of one endpoint call on the session store. -/
def stepStore : ApiCall → Store → Store
  | .createCheckout env req, s => (createCheckoutSession env req s).2
  | .checkSuccess q, s => (paymentSuccess q s).2
  | .checkStatus env sid, s => (paymentStatus env sid s).2
  | .transfer env req, s => (transferSol env req s).2
  | .swap env req, s => (swapTokens env req s).2

/-- A terminal session status in the sense of the specification. -/
def terminalStatus (st : String) : Bool :=
  st == "sol_transferred" || st == "token_swap_completed" || st == "error"

/-- Freshness of the generated session id of a `create-checkout-session`
call: the id generated from timestamp plus random suffix does not
collide with an existing entry.  Other calls generate no id. -/
def freshIdFor : ApiCall → Store → Prop
  | .createCheckout env _, s => s.get env.uniqueSessionId = none
  | _, _ => True

/-- Sequential execution of a list of endpoint calls against the store:
the store state after a whole trace of subsequent calls. -/
def runCalls : List ApiCall → Store → Store
  | [], s => s
  | c :: cs, s => runCalls cs (stepStore c s)

/-- The session-id freshness assumption of `freshIdFor`, asserted for
each call of a trace in the store state in which that call runs. -/
def freshRun : List ApiCall → Store → Prop
  | [], _ => True
  | c :: cs, s => freshIdFor c s ∧ freshRun cs (stepStore c s)

/-! ## Concrete fixtures used to instantiate the theorems -/

/-- A stored session already in the terminal status `sol_transferred`. -/
def sampleTerminalSession : PaymentSession := {
  id := "s1", walletAddress := "W", amount := 100, currency := "usd",
  status := "sol_transferred", timestamp := "t0", solAmount := 1, isTokenSwap := false }

/-- A stored session still in status `created`. -/
def sampleCreatedSession : PaymentSession := {
  id := "s1", walletAddress := "W", amount := 100, currency := "usd",
  status := "created", timestamp := "t0", solAmount := 1, isTokenSwap := false }

/-- A stored token-swap session whose payment has completed. -/
def sampleSwapSession : PaymentSession := {
  id := "s2", walletAddress := "W", amount := 100, currency := "usd",
  status := "payment_completed", timestamp := "t0", solAmount := 1, isTokenSwap := true,
  tokenSymbol := some "BONK", tokenAddress := some "Mint1" }

/-- A checkout environment with rate 1 for both currencies. -/
def checkoutEnv1 : CheckoutEnv := {
  solPrice := some { usd := 1, inr := 1 }
  stripe := some { id := "cs_1", url := "url_1" }
  uniqueSessionId := "sess_1", now := "t1" }

/-- A transfer environment whose broadcast succeeds with signature `SIG1`. -/
def transferEnvOk : TransferEnv := {
  fundingInitialized := true, validAddress := fun _ => true,
  broadcast := fun _ => .ok "SIG1", now := "t2" }

/-- A transfer environment whose broadcast throws a transient timeout. -/
def transferEnvTimeout : TransferEnv := {
  fundingInitialized := true, validAddress := fun _ => true,
  broadcast := fun _ => .error "TimeoutError: block height exceeded", now := "t2" }

/-- A swap environment whose Jupiter quote fetch errors on every attempt. -/
def swapEnvQuoteFail : SwapEnv := {
  fundingInitialized := true, validAddress := fun _ => true,
  quoteFetch := fun _ => .error "ECONNRESET",
  swapFetch := fun _ => .error "ECONNRESET",
  sendSwapTx := .error "unreachable", sendTransferTx := .error "unreachable",
  accountMissing := false }

/-- A swap environment whose quote fetch succeeds at once but whose
swap-transaction fetch errors on every attempt. -/
def swapEnvSwapFail : SwapEnv := {
  fundingInitialized := true, validAddress := fun _ => true,
  quoteFetch := fun _ => .ok { outAmount := 5000000 },
  swapFetch := fun _ => .error "502 Bad Gateway",
  sendSwapTx := .error "unreachable", sendTransferTx := .error "unreachable",
  accountMissing := false }

/-! ## Arithmetic and store helper lemmas -/

theorem Store.get_set (s : Store) (k : String) (v : PaymentSession) (id : String) :
    (s.set k v).get id = if k = id then some v else s.get id := by
  induction s with
  | nil =>
    by_cases h : k = id <;> simp [Store.set, Store.get, beq_iff_eq, h]
  | cons hd t ih =>
    obtain ⟨k', w⟩ := hd
    by_cases hk : k' = k
    · subst hk
      by_cases h : k' = id <;> simp [Store.set, Store.get, beq_iff_eq, h]
    · by_cases h : k' = id <;> by_cases hki : k = id <;>
        simp_all [Store.set, Store.get, beq_iff_eq]

theorem jsRound_eq_of {q : ℚ} {n : ℤ} (h₁ : (n : ℚ) ≤ q + 1/2) (h₂ : q + 1/2 < n + 1) :
    jsRound q = n := Int.floor_eq_iff.mpr ⟨h₁, h₂⟩

theorem ceil_eq_of {q : ℚ} {n : ℤ} (h₁ : (n : ℚ) - 1 < q) (h₂ : q ≤ n) :
    (⌈q⌉ : ℤ) = n := Int.ceil_eq_iff.mpr ⟨h₁, h₂⟩

theorem jsRound_intCast (n : ℤ) : jsRound (n : ℚ) = n := by
  refine jsRound_eq_of ?_ ?_ <;> linarith

/-- `Math.round` deviates from its argument by at most `1/2`. -/
theorem abs_jsRound_sub_le (q : ℚ) : |(jsRound q : ℚ) - q| ≤ 1/2 := by
  have h₁ : (jsRound q : ℚ) ≤ q + 1/2 := Int.floor_le _
  have h₂ : q + 1/2 < (jsRound q : ℚ) + 1 := Int.lt_floor_add_one _
  rw [abs_le]
  constructor <;> linarith

/-- Rounding to 8 decimal places moves a rational by at most `5e-9`. -/
theorem abs_round8_sub_le (q : ℚ) : |round8 q - q| ≤ 1/200000000 := by
  have h := abs_jsRound_sub_le (q * 100000000)
  have hrw : round8 q - q = ((jsRound (q * 100000000) : ℚ) - q * 100000000) / 100000000 := by
    unfold round8
    ring
  rw [hrw, abs_div, abs_of_pos (show (0:ℚ) < 100000000 by norm_num)]
  rw [div_le_iff₀ (show (0:ℚ) < 100000000 by norm_num)]
  calc |(jsRound (q * 100000000) : ℚ) - q * 100000000| ≤ 1/2 := h
    _ ≤ 1/200000000 * 100000000 := by norm_num

theorem truthyStr_some_ne {w : String} (h : w ≠ "") : truthyStr (some w) = true := by
  simp [truthyStr, h]

theorem truthyNum_some_ne {q : ℚ} (h : q ≠ 0) : truthyNum (some q) = true := by
  simp [truthyNum, h]

/-- Characterisation of a successful `create-checkout-session` call that
resolves its amounts through Case 1 (an explicit positive `solAmount`). -/
theorem createCheckout_case1 (env : CheckoutEnv) (req : CheckoutRequest) (store : Store)
    (p : PriceData) (st : StripeSession) (w cur : String) (rate s : ℚ)
    (hw : req.walletAddress = some w) (hwne : w ≠ "")
    (hemail : (truthyStr req.email && !emailFormatOk (req.email.getD "")) = false)
    (hcountry : countryGateFails req.country = false)
    (hp : env.solPrice = some p)
    (hst : env.stripe = some st)
    (hrate : (if req.country = some "IN" then p.inr else p.usd) = rate)
    (hcur : (if req.country = some "IN" then "inr" else "usd") = cur)
    (hs : req.solAmount = some s) (hspos : 0 < s)
    (hpos : 0 < (jsRound (s * rate * 100) : ℚ)) :
    createCheckoutSession env req store =
      (.ok { url := st.url
             solAmount := round8 s
             fiatAmount := (jsRound (s * rate * 100) : ℚ) / 100
             fiatCurrency := cur
             sessionId := env.uniqueSessionId
             isTokenSwap := truthyStr req.tokenSymbol
             tokenSymbol := orNullStr req.tokenSymbol
             tokenAmount := orNullNum req.tokenAmount },
        store.set env.uniqueSessionId
          { id := env.uniqueSessionId
            stripeSessionId := some st.id
            walletAddress := w
            amount := (jsRound (s * rate * 100) : ℚ)
            currency := cur
            status := "created"
            timestamp := env.now
            solAmount := round8 s
            isTokenSwap := truthyStr req.tokenSymbol
            tokenSymbol := orNullStr req.tokenSymbol
            tokenAddress := orNullStr req.tokenAddress
            tokenAmount := orNullNum req.tokenAmount }) := by
  unfold createCheckoutSession
  rw [hw, hp, hst, hs]
  simp only [truthyStr_some_ne hwne, Bool.not_true, Bool.false_eq_true, if_false,
    hemail, hcountry, Option.getD_some, truthyNum_some_ne (ne_of_gt hspos),
    hrate, hcur, hspos, true_and, eq_self_iff_true, if_true, hpos, not_true,
    not_lt]

/-- Characterisation of a successful `create-checkout-session` call that
resolves its amounts through Case 2 (no positive `solAmount`, an
explicit positive `dollarAmount`). -/
theorem createCheckout_case2 (env : CheckoutEnv) (req : CheckoutRequest) (store : Store)
    (p : PriceData) (st : StripeSession) (w cur : String) (rate d : ℚ)
    (hw : req.walletAddress = some w) (hwne : w ≠ "")
    (hemail : (truthyStr req.email && !emailFormatOk (req.email.getD "")) = false)
    (hcountry : countryGateFails req.country = false)
    (hp : env.solPrice = some p)
    (hst : env.stripe = some st)
    (hrate : (if req.country = some "IN" then p.inr else p.usd) = rate)
    (hcur : (if req.country = some "IN" then "inr" else "usd") = cur)
    (hno1 : ¬ (truthyNum req.solAmount = true ∧ 0 < req.solAmount.getD 0))
    (hd : req.dollarAmount = some d) (hdpos : 0 < d)
    (hpos : 0 < (jsRound (d * 100) : ℚ)) :
    createCheckoutSession env req store =
      (.ok { url := st.url
             solAmount := round8 (((jsRound (d * 100) : ℚ) / 100) / rate)
             fiatAmount := (jsRound (d * 100) : ℚ) / 100
             fiatCurrency := cur
             sessionId := env.uniqueSessionId
             isTokenSwap := truthyStr req.tokenSymbol
             tokenSymbol := orNullStr req.tokenSymbol
             tokenAmount := orNullNum req.tokenAmount },
        store.set env.uniqueSessionId
          { id := env.uniqueSessionId
            stripeSessionId := some st.id
            walletAddress := w
            amount := (jsRound (d * 100) : ℚ)
            currency := cur
            status := "created"
            timestamp := env.now
            solAmount := round8 (((jsRound (d * 100) : ℚ) / 100) / rate)
            isTokenSwap := truthyStr req.tokenSymbol
            tokenSymbol := orNullStr req.tokenSymbol
            tokenAddress := orNullStr req.tokenAddress
            tokenAmount := orNullNum req.tokenAmount }) := by
  unfold createCheckoutSession
  rw [hw, hp, hst, hd]
  simp only [truthyStr_some_ne hwne, Bool.not_true, Bool.false_eq_true, if_false,
    hemail, hcountry, Option.getD_some, truthyNum_some_ne (ne_of_gt hdpos),
    hrate, hcur, hdpos, hno1, true_and, eq_self_iff_true, if_true, hpos, not_true,
    not_lt, false_and, if_false]

/-- C2: with a positive `solAmount` in the request (even alongside a
`dollarAmount`), Case 1 resolves the amounts — the stored and returned
SOL amount is `solAmount` rounded to 8 decimal places and the fiat
minor-unit amount is `round(solAmount × rate × 100)`. -/
theorem claim2 (env : CheckoutEnv) (req : CheckoutRequest) (store : Store)
    (p : PriceData) (st : StripeSession) (w : String) (rate s : ℚ)
    (hw : req.walletAddress = some w) (hwne : w ≠ "")
    (hemail : (truthyStr req.email && !emailFormatOk (req.email.getD "")) = false)
    (hcountry : countryGateFails req.country = false)
    (hp : env.solPrice = some p)
    (hst : env.stripe = some st)
    (hrate : (if req.country = some "IN" then p.inr else p.usd) = rate)
    (hs : req.solAmount = some s) (hspos : 0 < s)
    (hpos : 0 < (jsRound (s * rate * 100) : ℚ)) :
    ∃ resp rec,
      createCheckoutSession env req store = (.ok resp, store.set env.uniqueSessionId rec) ∧
      (createCheckoutSession env req store).2.get env.uniqueSessionId = some rec ∧
      rec.solAmount = round8 s ∧
      resp.solAmount = round8 s ∧
      rec.amount = (jsRound (s * rate * 100) : ℚ) ∧
      resp.fiatAmount = (jsRound (s * rate * 100) : ℚ) / 100 := by
  have h := createCheckout_case1 env req store p st w
    (if req.country = some "IN" then "inr" else "usd") rate s hw hwne hemail hcountry hp hst
    hrate rfl hs hspos hpos
  refine ⟨_, _, h, ?_, rfl, rfl, rfl, rfl⟩
  rw [h]
  simp [Store.get_set]

/-- Witness for C2 at a concrete request that also carries a
`dollarAmount`, exercising the precedence of `solAmount`. -/
theorem claim2_witness :
    ∃ resp rec,
      createCheckoutSession checkoutEnv1
          { walletAddress := some "W", solAmount := some 3, dollarAmount := some 7 } [] =
        (.ok resp, Store.set [] checkoutEnv1.uniqueSessionId rec) ∧
      (createCheckoutSession checkoutEnv1
          { walletAddress := some "W", solAmount := some 3, dollarAmount := some 7 } []).2.get
          checkoutEnv1.uniqueSessionId = some rec ∧
      rec.solAmount = round8 3 ∧
      resp.solAmount = round8 3 ∧
      rec.amount = (jsRound ((3:ℚ) * 1 * 100) : ℚ) ∧
      resp.fiatAmount = (jsRound ((3:ℚ) * 1 * 100) : ℚ) / 100 :=
  claim2 checkoutEnv1 _ [] { usd := 1, inr := 1 } { id := "cs_1", url := "url_1" } "W" 1 3
    rfl (by decide) (by decide) (by decide) rfl rfl rfl rfl (by norm_num)
    (by rw [show jsRound ((3:ℚ) * 1 * 100) = 300 from jsRound_eq_of (by norm_num) (by norm_num)]
        norm_num)

theorem round8_intCast (n : ℤ) : round8 ((n : ℤ) : ℚ) = (n : ℚ) := by
  unfold round8
  rw [show ((n : ℚ) * 100000000) = ((n * 100000000 : ℤ) : ℚ) by push_cast; ring,
    jsRound_intCast]
  push_cast
  field_simp

/-- C3 (amended): with no positive `solAmount` and a positive
`dollarAmount` that is a whole number of minor units, Case 2 stores
fiat amount `round(dollarAmount × 100)` and a SOL amount equal to
`round(dollarAmount × 100)/100 / rate` rounded to 8 decimals, which is
within `1e-8` of `dollarAmount / rate`. -/
theorem claim3_amended (env : CheckoutEnv) (req : CheckoutRequest) (store : Store)
    (p : PriceData) (st : StripeSession) (w : String) (rate d : ℚ) (k : ℤ)
    (hw : req.walletAddress = some w) (hwne : w ≠ "")
    (hemail : (truthyStr req.email && !emailFormatOk (req.email.getD "")) = false)
    (hcountry : countryGateFails req.country = false)
    (hp : env.solPrice = some p)
    (hst : env.stripe = some st)
    (hrate : (if req.country = some "IN" then p.inr else p.usd) = rate)
    (hno1 : ¬ (truthyNum req.solAmount = true ∧ 0 < req.solAmount.getD 0))
    (hd : req.dollarAmount = some d) (hdpos : 0 < d)
    (hk : (k : ℚ) = d * 100) (hkpos : 0 < k) :
    ∃ resp rec,
      createCheckoutSession env req store = (.ok resp, store.set env.uniqueSessionId rec) ∧
      (createCheckoutSession env req store).2.get env.uniqueSessionId = some rec ∧
      rec.amount = (jsRound (d * 100) : ℚ) ∧
      resp.fiatAmount = (jsRound (d * 100) : ℚ) / 100 ∧
      rec.solAmount = round8 (d / rate) ∧
      |rec.solAmount - d / rate| ≤ 1/100000000 := by
  have hjr : jsRound (d * 100) = k := by rw [← hk, jsRound_intCast]
  have hpos : 0 < (jsRound (d * 100) : ℚ) := by
    rw [hjr]; exact_mod_cast hkpos
  have harg : ((jsRound (d * 100) : ℚ) / 100) / rate = d / rate := by
    rw [hjr, hk]; ring
  have h := createCheckout_case2 env req store p st w
    (if req.country = some "IN" then "inr" else "usd") rate d hw hwne hemail hcountry hp hst
    hrate rfl hno1 hd hdpos hpos
  refine ⟨_, _, h, ?_, rfl, rfl, ?_, ?_⟩
  · rw [h]; simp [Store.get_set]
  · show round8 (((jsRound (d * 100) : ℚ) / 100) / rate) = round8 (d / rate)
    rw [harg]
  · show |round8 (((jsRound (d * 100) : ℚ) / 100) / rate) - d / rate| ≤ 1/100000000
    rw [harg]
    exact le_trans (abs_round8_sub_le _) (by norm_num)

/-- Counterexample to C3 as stated: for `dollarAmount = 1.004` at rate 1
the stored SOL amount is `1` (computed from the rounded cent amount),
which is not within `1e-8` of `dollarAmount / rate = 1.004`. -/
theorem claim3_counterexample :
    ((createCheckoutSession checkoutEnv1
        { walletAddress := some "W", dollarAmount := some (251/250) } []).2.get "sess_1").map
      (·.solAmount) = some 1 ∧
    ¬ (|(1 : ℚ) - (251/250 : ℚ) / 1| ≤ 1/100000000) := by
  have h100 : jsRound ((251 : ℚ)/250 * 100) = 100 := jsRound_eq_of (by norm_num) (by norm_num)
  have h := createCheckout_case2 checkoutEnv1
      { walletAddress := some "W", dollarAmount := some (251/250) } []
      { usd := 1, inr := 1 } { id := "cs_1", url := "url_1" } "W" "usd" 1 (251/250)
      rfl (by decide) (by decide) (by decide) rfl rfl rfl rfl
      (by simp [truthyNum]) rfl (by norm_num)
      (by rw [h100]; norm_num)
  constructor
  · rw [h]
    show some (round8 (((jsRound ((251 : ℚ)/250 * 100) : ℚ) / 100) / 1)) = some 1
    rw [h100]
    rw [show ((((100:ℤ):ℚ)) / 100 / 1 : ℚ) = ((1:ℤ):ℚ) by push_cast; norm_num]
    rw [round8_intCast]
    norm_num
  · have habs : |(1 : ℚ) - 251/250 / 1| = 1/250 := by
      rw [show (1 : ℚ) - 251/250/1 = -(1/250) by norm_num, abs_neg,
        abs_of_pos (by norm_num : (0:ℚ) < 1/250)]
    rw [habs]
    norm_num

/-- Witness for the amended C3 at `dollarAmount = 2`, rate 1. -/
theorem claim3_amended_witness :
    ∃ resp rec,
      createCheckoutSession checkoutEnv1
          { walletAddress := some "W", dollarAmount := some 2 } [] =
        (.ok resp, Store.set [] checkoutEnv1.uniqueSessionId rec) ∧
      (createCheckoutSession checkoutEnv1
          { walletAddress := some "W", dollarAmount := some 2 } []).2.get
        checkoutEnv1.uniqueSessionId = some rec ∧
      rec.amount = (jsRound ((2:ℚ) * 100) : ℚ) ∧
      resp.fiatAmount = (jsRound ((2:ℚ) * 100) : ℚ) / 100 ∧
      rec.solAmount = round8 ((2:ℚ) / 1) ∧
      |rec.solAmount - (2:ℚ) / 1| ≤ 1/100000000 :=
  claim3_amended checkoutEnv1 _ [] { usd := 1, inr := 1 } { id := "cs_1", url := "url_1" }
    "W" 1 2 200 rfl (by decide) (by decide) (by decide) rfl rfl rfl
    (by simp [truthyNum]) rfl (by norm_num) (by push_cast; norm_num) (by norm_num)

/-- C9 (amended): on every successful `create-checkout-session` call,
both the response and the stored record carry
`isTokenSwap = Boolean(tokenSymbol)` — the token mint address is not
consulted. -/
theorem claim9_amended (env : CheckoutEnv) (req : CheckoutRequest) (store : Store)
    (resp : CheckoutResponse) (st' : Store)
    (hE : createCheckoutSession env req store = (.ok resp, st')) :
    resp.isTokenSwap = truthyStr req.tokenSymbol ∧
    ∃ rec, st'.get env.uniqueSessionId = some rec ∧
      rec.isTokenSwap = truthyStr req.tokenSymbol := by
  unfold createCheckoutSession at hE
  repeat' split at hE
  all_goals try (rw [ite_eq_iff] at hE; rcases hE with ⟨-, hE⟩ | ⟨-, hE⟩)
  all_goals try (
    simp only [Prod.mk.injEq, CheckoutResult.ok.injEq] at hE
    obtain ⟨h1, h2⟩ := hE
    subst h1
    subst h2
    exact ⟨rfl, _, (Store.get_set _ _ _ _).trans (if_pos rfl), rfl⟩)
  all_goals simp at hE

/-- Counterexample to C9 as stated: a request specifying a token symbol
but no token mint address still yields `isTokenSwap = true`. -/
theorem claim9_counterexample :
    (({ walletAddress := some "W", solAmount := some 1, tokenSymbol := some "BONK" } :
        CheckoutRequest).tokenAddress = none) ∧
    ∃ resp rec,
      createCheckoutSession checkoutEnv1
          { walletAddress := some "W", solAmount := some 1, tokenSymbol := some "BONK" } [] =
        (.ok resp, Store.set [] checkoutEnv1.uniqueSessionId rec) ∧
      resp.isTokenSwap = true ∧ rec.isTokenSwap = true := by
  have h := createCheckout_case1 checkoutEnv1
      { walletAddress := some "W", solAmount := some 1, tokenSymbol := some "BONK" } []
      { usd := 1, inr := 1 } { id := "cs_1", url := "url_1" } "W" "usd" 1 1
      rfl (by decide) (by decide) (by decide) rfl rfl rfl rfl rfl (by norm_num)
      (by rw [show jsRound ((1:ℚ) * 1 * 100) = 100 from jsRound_eq_of (by norm_num) (by norm_num)]
          norm_num)
  exact ⟨rfl, _, _, h, by decide, by decide⟩

/-- Witness for the amended C9 at a concrete successful call. -/
theorem claim9_amended_witness :
    ({ url := "url_1", solAmount := round8 1,
       fiatAmount := ((jsRound ((1:ℚ) * 1 * 100) : ℤ) : ℚ) / 100, fiatCurrency := "usd",
       sessionId := "sess_1", isTokenSwap := truthyStr (some "BONK"),
       tokenSymbol := orNullStr (some "BONK"),
       tokenAmount := orNullNum none } : CheckoutResponse).isTokenSwap =
      truthyStr (some "BONK") ∧
    ∃ rec,
      (Store.set [] "sess_1"
          { id := "sess_1", stripeSessionId := some "cs_1", walletAddress := "W",
            amount := ((jsRound ((1:ℚ) * 1 * 100) : ℤ) : ℚ), currency := "usd",
            status := "created", timestamp := "t1", solAmount := round8 1,
            isTokenSwap := truthyStr (some "BONK"), tokenSymbol := orNullStr (some "BONK"),
            tokenAddress := orNullStr none, tokenAmount := orNullNum none }).get "sess_1" =
        some rec ∧
      rec.isTokenSwap = truthyStr (some "BONK") :=
  claim9_amended checkoutEnv1
    { walletAddress := some "W", solAmount := some 1, tokenSymbol := some "BONK" } [] _ _
    (createCheckout_case1 checkoutEnv1
      { walletAddress := some "W", solAmount := some 1, tokenSymbol := some "BONK" } []
      { usd := 1, inr := 1 } { id := "cs_1", url := "url_1" } "W" "usd" 1 1
      rfl (by decide) (by decide) (by decide) rfl rfl rfl rfl rfl (by norm_num)
      (by rw [show jsRound ((1:ℚ) * 1 * 100) = 100 from jsRound_eq_of (by norm_num) (by norm_num)]
          norm_num))

/-- Characterisation of a successful `transfer-sol` broadcast with a
session id that is present in the store. -/
theorem transferSol_ok_session (env : TransferEnv) (req : TransferRequest) (store : Store)
    (w sid sig : String) (a : ℚ) (sess : PaymentSession)
    (hw : req.walletAddress = some w) (hwne : w ≠ "")
    (hfund : env.fundingInitialized = true)
    (haddr : env.validAddress w = true)
    (ha : req.amount.getD SOL_AMOUNT = a) (hapos : 0 < a)
    (hsid : req.sessionId = some sid) (hsidne : sid ≠ "")
    (hsess : store.get sid = some sess)
    (hb : env.broadcast (jsRound (a * 1000000000)) = .ok sig) :
    transferSol env req store =
      (.success sig ("https://solscan.io/tx/" ++ sig) a
          ("SOL transfer of " ++ toString a ++
            " initiated successfully. Transaction sent to network."),
        store.set sid
          (if sess.isTokenSwap then
            { sess with
                status := "sol_received"
                solSignature := some sig
                solExplorerLink := some ("https://solscan.io/tx/" ++ sig)
                transferTimestamp := some env.now
                transferredSolAmount := some a }
          else
            { sess with
                status := "sol_transferred"
                signature := some sig
                explorerLink := some ("https://solscan.io/tx/" ++ sig)
                transferTimestamp := some env.now
                transferredSolAmount := some a })) := by
  unfold transferSol
  rw [hw, hsid]
  simp only [truthyStr_some_ne hwne, truthyStr_some_ne hsidne, Bool.not_true,
    Bool.false_eq_true, if_false, hfund, Option.getD_some, haddr, ha, hapos, not_true,
    not_lt, hb, hsess, if_true, eq_self_iff_true]

/-- C4: when the broadcast step of `transfer-sol` throws, a transient
expiry/timeout error with fewer than 3 prior retries yields a retryable
error carrying `retryScheduled = true` and `retryCount + 1`; any other
error, or a retry budget of 3 or more, yields a fatal error surfacing
the thrown message and carrying no `retryScheduled` flag.  The store is
untouched either way. -/
theorem claim4 (env : TransferEnv) (req : TransferRequest) (store : Store)
    (w msg : String) (a rc : ℚ)
    (hw : req.walletAddress = some w) (hwne : w ≠ "")
    (hfund : env.fundingInitialized = true)
    (haddr : env.validAddress w = true)
    (ha : req.amount.getD SOL_AMOUNT = a) (hapos : 0 < a)
    (hrc : req.retryCount.getD 0 = rc)
    (hb : env.broadcast (jsRound (a * 1000000000)) = .error msg) :
    (isTransientTxError msg = true ∧ rc < 3 →
      transferSol env req store =
        (.err { httpStatus := 500,
                error := "Transaction failed but will be retried automatically",
                retryScheduled := some true, retryCount := some (rc + 1) }, store)) ∧
    (isTransientTxError msg = false ∨ 3 ≤ rc →
      transferSol env req store =
        (.err { httpStatus := 500, error := "Transaction failed: " ++ msg,
                details := some msg }, store)) := by
  have hbase : transferSol env req store =
      (if isTransientTxError msg = true ∧ rc < 3 then
        (.err { httpStatus := 500,
                error := "Transaction failed but will be retried automatically",
                retryScheduled := some true, retryCount := some (rc + 1) }, store)
      else
        (.err { httpStatus := 500, error := "Transaction failed: " ++ msg,
                details := some msg }, store)) := by
    unfold transferSol
    rw [hw]
    simp only [truthyStr_some_ne hwne, Bool.not_true, Bool.false_eq_true, if_false,
      hfund, Option.getD_some, haddr, ha, hrc, hapos, not_true, not_lt, hb, if_true,
      eq_self_iff_true]
  constructor
  · rintro ⟨h1, h2⟩
    rw [hbase, if_pos ⟨h1, h2⟩]
  · intro h
    rw [hbase, if_neg ?_]
    rintro ⟨c1, c2⟩
    rcases h with h | h
    · rw [h] at c1
      exact Bool.false_ne_true c1
    · exact absurd c2 (not_lt.mpr h)

/-- Witness for C4: a timeout error at `retryCount = 1` schedules a retry. -/
theorem claim4_witness :
    transferSol transferEnvTimeout { walletAddress := some "W", retryCount := some 1 } [] =
      (.err { httpStatus := 500,
              error := "Transaction failed but will be retried automatically",
              retryScheduled := some true, retryCount := some ((1:ℚ) + 1) }, []) :=
  (claim4 transferEnvTimeout { walletAddress := some "W", retryCount := some 1 } []
      "W" "TimeoutError: block height exceeded" SOL_AMOUNT 1
      rfl (by decide) rfl rfl rfl (by norm_num [SOL_AMOUNT]) rfl rfl).1
    ⟨by decide, by norm_num⟩

/-- C7: a successful `transfer-sol` broadcast with a stored session
returns `status = success` with the signature, the
`https://solscan.io/tx/<signature>` explorer link and the amount, and
updates the stored session to `sol_transferred` (or `sol_received` for
a token-swap session), recording signature, explorer link and a
transfer timestamp. -/
theorem claim7 (env : TransferEnv) (req : TransferRequest) (store : Store)
    (w sid sig : String) (a : ℚ) (sess : PaymentSession)
    (hw : req.walletAddress = some w) (hwne : w ≠ "")
    (hfund : env.fundingInitialized = true)
    (haddr : env.validAddress w = true)
    (ha : req.amount.getD SOL_AMOUNT = a) (hapos : 0 < a)
    (hsid : req.sessionId = some sid) (hsidne : sid ≠ "")
    (hsess : store.get sid = some sess)
    (hb : env.broadcast (jsRound (a * 1000000000)) = .ok sig) :
    (transferSol env req store).1 =
      .success sig ("https://solscan.io/tx/" ++ sig) a
        ("SOL transfer of " ++ toString a ++
          " initiated successfully. Transaction sent to network.") ∧
    ∃ sess',
      (transferSol env req store).2.get sid = some sess' ∧
      sess'.transferTimestamp = some env.now ∧
      sess'.transferredSolAmount = some a ∧
      (sess.isTokenSwap = true →
        sess'.status = "sol_received" ∧ sess'.solSignature = some sig ∧
        sess'.solExplorerLink = some ("https://solscan.io/tx/" ++ sig)) ∧
      (sess.isTokenSwap = false →
        sess'.status = "sol_transferred" ∧ sess'.signature = some sig ∧
        sess'.explorerLink = some ("https://solscan.io/tx/" ++ sig)) := by
  have h := transferSol_ok_session env req store w sid sig a sess
    hw hwne hfund haddr ha hapos hsid hsidne hsess hb
  by_cases hts : sess.isTokenSwap = true
  · simp only [hts, if_true] at h
    rw [h]
    exact ⟨rfl, _, (Store.get_set _ _ _ _).trans (if_pos rfl), rfl, rfl,
      fun _ => ⟨rfl, rfl, rfl⟩, fun hf => absurd (hf.symm.trans hts) (by decide)⟩
  · have hts' : sess.isTokenSwap = false := Bool.eq_false_iff.mpr hts
    simp only [hts', Bool.false_eq_true, if_false] at h
    rw [h]
    exact ⟨rfl, _, (Store.get_set _ _ _ _).trans (if_pos rfl), rfl, rfl,
      fun ht => absurd (ht.symm.trans hts') (by decide), fun _ => ⟨rfl, rfl, rfl⟩⟩

/-- Witness for C7 at a concrete non-token-swap session. -/
theorem claim7_witness :
    (transferSol transferEnvOk
        { walletAddress := some "W", amount := some 2, sessionId := some "s1" }
        [("s1", sampleCreatedSession)]).1 =
      .success "SIG1" ("https://solscan.io/tx/" ++ "SIG1") 2
        ("SOL transfer of " ++ toString (2:ℚ) ++
          " initiated successfully. Transaction sent to network.") ∧
    ∃ sess',
      (transferSol transferEnvOk
          { walletAddress := some "W", amount := some 2, sessionId := some "s1" }
          [("s1", sampleCreatedSession)]).2.get "s1" = some sess' ∧
      sess'.transferTimestamp = some transferEnvOk.now ∧
      sess'.transferredSolAmount = some 2 ∧
      (sampleCreatedSession.isTokenSwap = true →
        sess'.status = "sol_received" ∧ sess'.solSignature = some "SIG1" ∧
        sess'.solExplorerLink = some ("https://solscan.io/tx/" ++ "SIG1")) ∧
      (sampleCreatedSession.isTokenSwap = false →
        sess'.status = "sol_transferred" ∧ sess'.signature = some "SIG1" ∧
        sess'.explorerLink = some ("https://solscan.io/tx/" ++ "SIG1")) :=
  claim7 transferEnvOk { walletAddress := some "W", amount := some 2, sessionId := some "s1" }
    [("s1", sampleCreatedSession)] "W" "s1" "SIG1" 2 sampleCreatedSession
    rfl (by decide) rfl rfl rfl (by norm_num) rfl (by decide) rfl rfl

/-- C10: when the `amount` field is absent, `transfer-sol` behaves
exactly as if `amount = 0.1` had been passed: the defaulted amount is
used for validation, for the broadcast lamports, for the session
update, and in the response. -/
theorem claim10 (env : TransferEnv) (req : TransferRequest) (store : Store)
    (hnone : req.amount = none) :
    transferSol env req store = transferSol env { req with amount := some (1/10) } store ∧
    ∀ (w sid sig : String) (sess : PaymentSession),
      req.walletAddress = some w → w ≠ "" →
      env.fundingInitialized = true → env.validAddress w = true →
      req.sessionId = some sid → sid ≠ "" → store.get sid = some sess →
      env.broadcast (jsRound ((1/10 : ℚ) * 1000000000)) = .ok sig →
      (transferSol env req store).1 =
        .success sig ("https://solscan.io/tx/" ++ sig) (1/10)
          ("SOL transfer of " ++ toString ((1:ℚ)/10) ++
            " initiated successfully. Transaction sent to network.") ∧
      ∃ sess', (transferSol env req store).2.get sid = some sess' ∧
        sess'.transferredSolAmount = some (1/10) := by
  constructor
  · unfold transferSol
    rw [hnone]
    rfl
  · intro w sid sig sess hw hwne hfund haddr hsid hsidne hsess hb
    have ha : req.amount.getD SOL_AMOUNT = 1/10 := by rw [hnone]; rfl
    have h := transferSol_ok_session env req store w sid sig (1/10) sess
      hw hwne hfund haddr ha (by norm_num) hsid hsidne hsess hb
    by_cases hts : sess.isTokenSwap = true
    · simp only [hts, if_true] at h
      rw [h]
      exact ⟨rfl, _, (Store.get_set _ _ _ _).trans (if_pos rfl), rfl⟩
    · have hts' : sess.isTokenSwap = false := Bool.eq_false_iff.mpr hts
      simp only [hts', Bool.false_eq_true, if_false] at h
      rw [h]
      exact ⟨rfl, _, (Store.get_set _ _ _ _).trans (if_pos rfl), rfl⟩

/-- Witness for C10: an omitted amount transfers exactly 0.1 SOL. -/
theorem claim10_witness :
    (transferSol transferEnvOk { walletAddress := some "W", sessionId := some "s1" }
        [("s1", sampleCreatedSession)]).1 =
      .success "SIG1" ("https://solscan.io/tx/" ++ "SIG1") (1/10)
        ("SOL transfer of " ++ toString ((1:ℚ)/10) ++
          " initiated successfully. Transaction sent to network.") ∧
    ∃ sess',
      (transferSol transferEnvOk { walletAddress := some "W", sessionId := some "s1" }
          [("s1", sampleCreatedSession)]).2.get "s1" = some sess' ∧
      sess'.transferredSolAmount = some (1/10) :=
  (claim10 transferEnvOk { walletAddress := some "W", sessionId := some "s1" }
      [("s1", sampleCreatedSession)] rfl).2
    "W" "s1" "SIG1" sampleCreatedSession rfl (by decide) rfl rfl rfl (by decide) rfl rfl

theorem retryLoop_step {α : Type} (f : ℕ → Except String α) (calls fuel : ℕ) (e : String)
    (hc : f calls = .error e) (hf : fuel ≠ 0) :
    retryLoop f calls (fuel + 1) = retryLoop f (calls + 1) fuel := by
  conv_lhs => unfold retryLoop
  rw [hc]
  simp [hf]

theorem retryLoop_last {α : Type} (f : ℕ → Except String α) (calls : ℕ) (e : String)
    (hc : f calls = .error e) :
    retryLoop f calls (0 + 1) = (.error e, calls + 1) := by
  conv_lhs => unfold retryLoop
  rw [hc]
  simp

theorem retryLoop_allFail {α : Type} (f : ℕ → Except String α)
    (h : ∀ n, ∃ e, f n = .error e) :
    ∃ e, retryLoop f 0 3 = (.error e, 3) := by
  obtain ⟨e0, h0⟩ := h 0
  obtain ⟨e1, h1⟩ := h 1
  obtain ⟨e2, h2⟩ := h 2
  have t1 : retryLoop f 0 3 = retryLoop f 1 2 := retryLoop_step f 0 2 e0 h0 (by decide)
  have t2 : retryLoop f 1 2 = retryLoop f 2 1 := retryLoop_step f 1 1 e1 h1 (by decide)
  have t3 : retryLoop f 2 1 = (.error e2, 3) := retryLoop_last f 2 e2 h2
  exact ⟨e2, t1.trans (t2.trans t3)⟩

/-- C5: a `swap-tokens` call whose Jupiter quote fetch (or whose Jupiter
swap-transaction fetch) errors on every attempt makes exactly 3 fetch
attempts of that step and answers 503 `Jupiter API unavailable`, leaving
the session store unchanged. -/
theorem claim5 (env : SwapEnv) (req : SwapRequest) (store : Store) (w tok : String) (a : ℚ)
    (hw : req.walletAddress = some w) (hwne : w ≠ "")
    (htok : req.toToken = some tok) (htokne : tok ≠ "")
    (hamt : req.amount = some a) (hapos : 0 < a)
    (hfund : env.fundingInitialized = true)
    (haddr : env.validAddress w = true) :
    ((∀ n, ∃ e, env.quoteFetch n = .error e) →
      swapTokens env req store =
        (.err { httpStatus := 503, error := "Jupiter API unavailable",
                details := some "Could not get a quote from Jupiter exchange after multiple attempts." },
          store) ∧
      (retryLoop env.quoteFetch 0 3).2 = 3) ∧
    (∀ qd, (retryLoop env.quoteFetch 0 3).1 = .ok qd →
      (∀ n, ∃ e, env.swapFetch n = .error e) →
      swapTokens env req store =
        (.err { httpStatus := 503, error := "Jupiter API unavailable",
                details := some "Could not get a swap transaction from Jupiter exchange after multiple attempts." },
          store) ∧
      (retryLoop env.swapFetch 0 3).2 = 3) := by
  constructor
  · intro hq
    obtain ⟨e, he⟩ := retryLoop_allFail env.quoteFetch hq
    constructor
    · unfold swapTokens
      rw [hw, htok, hamt, he]
      simp only [truthyStr_some_ne hwne, truthyStr_some_ne htokne, Bool.not_true,
        Bool.false_eq_true, if_false, truthyNum_some_ne (ne_of_gt hapos),
        Option.getD_some, hapos, and_true, not_true, hfund, haddr, eq_self_iff_true,
        if_true]
    · rw [he]
  · intro qd hqok hs
    obtain ⟨e, he⟩ := retryLoop_allFail env.swapFetch hs
    constructor
    · unfold swapTokens
      rw [hw, htok, hamt, hqok, he]
      simp only [truthyStr_some_ne hwne, truthyStr_some_ne htokne, Bool.not_true,
        Bool.false_eq_true, if_false, truthyNum_some_ne (ne_of_gt hapos),
        Option.getD_some, hapos, and_true, not_true, hfund, haddr, eq_self_iff_true,
        if_true]
    · rw [he]

/-- Witness for C5: a quote provider erroring on every attempt. -/
theorem claim5_witness :
    swapTokens swapEnvQuoteFail
        { walletAddress := some "W", toToken := some "Mint1", amount := some 1 } [] =
      (.err { httpStatus := 503, error := "Jupiter API unavailable",
              details := some "Could not get a quote from Jupiter exchange after multiple attempts." },
        []) ∧
    (retryLoop swapEnvQuoteFail.quoteFetch 0 3).2 = 3 :=
  (claim5 swapEnvQuoteFail
      { walletAddress := some "W", toToken := some "Mint1", amount := some 1 } []
      "W" "Mint1" 1 rfl (by decide) rfl (by decide) rfl (by norm_num) rfl rfl).1
    (fun _ => ⟨"ECONNRESET", rfl⟩)

/-- Counterexample to C6 as stated: for the single observation
`{slot 1, fee 100001}` the code returns `⌈100001 × 1.2⌉ = 120002`,
while rounding to the nearest integer as claimed would give `120001`. -/
theorem claim6_counterexample :
    getDynamicPriorityFee (.ok [⟨1, 100001⟩]) ≠
      min (max (jsRound ((100001 : ℚ) * (12/10))) 100000) 1000000 ∧
    getDynamicPriorityFee (.ok [⟨1, 100001⟩]) = 120002 ∧
    min (max (jsRound ((100001 : ℚ) * (12/10))) 100000) 1000000 = 120001 := by
  have hceil : (⌈((100001 : ℤ) : ℚ) * (12/10)⌉ : ℤ) = 120002 := by
    apply ceil_eq_of <;> push_cast <;> norm_num
  have hround : jsRound ((100001 : ℚ) * (12/10)) = 120001 := by
    apply jsRound_eq_of <;> norm_num
  have hcode : getDynamicPriorityFee (.ok [⟨1, 100001⟩]) = 120002 := by
    have h0 : getDynamicPriorityFee (.ok [⟨1, 100001⟩]) =
        min (max (⌈((100001 : ℤ) : ℚ) * (12/10)⌉ : ℤ) 100000) 1000000 := rfl
    rw [h0, hceil]
    omega
  have hclaim : min (max (jsRound ((100001 : ℚ) * (12/10))) 100000) 1000000 = 120001 := by
    rw [hround]
    omega
  exact ⟨by rw [hcode, hclaim]; decide, hcode, hclaim⟩

/-- C6 (amended): sampling errors and an empty observation list yield
the default 200000; for a non-empty list, the code takes the 5 most
recent observations by slot (descending, stable), sorts their fees
ascending, picks the entry at index `⌊n/2⌋` (the median for odd `n`,
the upper middle for even `n`), multiplies by 1.2 and rounds UP
(`Math.ceil`, not to-nearest), then clamps to `[100000, 1000000]`; the
observation list `[50000, 100000, 150000, 200000, 9000000]` yields
exactly 180000. -/
theorem claim6_amended :
    (∀ e, getDynamicPriorityFee (.error e) = 200000) ∧
    getDynamicPriorityFee (.ok []) = 200000 ∧
    (∀ l : List FeeObservation, l ≠ [] →
      ∀ sortedFees : List ℤ,
        List.Perm sortedFees
            (((l.insertionSort fun a b => b.slot ≤ a.slot).take 5).map (·.prioritizationFee)) →
        List.Sorted (· ≤ ·) sortedFees →
        getDynamicPriorityFee (.ok l) =
          min (max (⌈(sortedFees.getD
              ((((l.insertionSort fun a b => b.slot ≤ a.slot).take 5).map
                  (·.prioritizationFee)).length / 2) 0 : ℚ) * (12/10)⌉ : ℤ) 100000) 1000000) ∧
    getDynamicPriorityFee
        (.ok [⟨903, 50000⟩, ⟨904, 100000⟩, ⟨905, 150000⟩, ⟨906, 200000⟩, ⟨907, 9000000⟩]) =
      180000 := by
  refine ⟨fun e => rfl, rfl, ?_, ?_⟩
  · intro l hl sortedFees hperm hsort
    have heq : sortedFees =
        (((l.insertionSort fun a b => b.slot ≤ a.slot).take 5).map
            (·.prioritizationFee)).insertionSort (· ≤ ·) :=
      List.eq_of_perm_of_sorted
        (hperm.trans (List.perm_insertionSort _ _).symm) hsort
        (List.sorted_insertionSort _ _)
    rw [heq]
    have hl' : 0 < l.length := List.length_pos.mpr hl
    unfold getDynamicPriorityFee
    dsimp only
    rw [if_pos hl']
  · have hceil180 : (⌈((150000 : ℤ) : ℚ) * (12/10)⌉ : ℤ) = 180000 := by
      apply ceil_eq_of <;> push_cast <;> norm_num
    have h0 : getDynamicPriorityFee
        (.ok [⟨903, 50000⟩, ⟨904, 100000⟩, ⟨905, 150000⟩, ⟨906, 200000⟩, ⟨907, 9000000⟩]) =
        min (max (⌈((150000 : ℤ) : ℚ) * (12/10)⌉ : ℤ) 100000) 1000000 := rfl
    rw [h0, hceil180]
    omega

/-- Witness for the amended C6 at the single observation `100001`. -/
theorem claim6_amended_witness :
    getDynamicPriorityFee (.ok [⟨1, 100001⟩]) =
      min (max (⌈((([100001] : List ℤ).getD
          (((([(⟨1, 100001⟩ : FeeObservation)].insertionSort fun a b => b.slot ≤ a.slot).take 5).map
              (·.prioritizationFee)).length / 2) 0 : ℤ) : ℚ) * (12/10)⌉ : ℤ) 100000) 1000000 :=
  claim6_amended.2.2.1 [⟨1, 100001⟩] (by decide) [100001] (by decide) (by decide)

/-- C8 (amended): `GET /payment-success` never mutates the stored
session; the `payment_completed` status appears only in the response
payload (the `PAYMENT_COMPLETE` message data), never in the store. -/
theorem claim8_amended (q : PaymentSuccessQuery) (store : Store) :
    (paymentSuccess q store).2 = store ∧
    (paymentSuccess q store).1.status = "payment_completed" := by
  refine ⟨rfl, ?_⟩
  unfold paymentSuccess
  dsimp only
  split
  · split
    · rfl
    · split <;> rfl
  · split <;> rfl

/-- Counterexample to C8 as stated: a stored session in status
`created` still has status `created` after a `payment-success` request
carrying its session id. -/
theorem claim8_counterexample :
    ((paymentSuccess { session_id := some "s1" } [("s1", sampleCreatedSession)]).2.get
        "s1").map (·.status) = some "created" ∧
    ("created" : String) ≠ "payment_completed" :=
  ⟨rfl, by decide⟩

/-! ## Store effects of each endpoint, and the terminal-status theorem -/

theorem paymentSuccess_store (q : PaymentSuccessQuery) (store : Store) :
    (paymentSuccess q store).2 = store := rfl

theorem paymentStatus_store (env : StatusEnv) (sid : String) (store : Store) :
    (paymentStatus env sid store).2 = store := by
  unfold paymentStatus
  split
  · rfl
  · split <;> rfl

theorem createCheckout_store (env : CheckoutEnv) (req : CheckoutRequest) (store : Store) :
    (createCheckoutSession env req store).2 = store ∨
      ∃ rec : PaymentSession,
        (createCheckoutSession env req store).2 = store.set env.uniqueSessionId rec := by
  unfold createCheckoutSession
  dsimp only
  repeat' first
    | exact Or.inl rfl
    | exact Or.inr ⟨_, rfl⟩
    | split

theorem transferSol_store (env : TransferEnv) (req : TransferRequest) (store : Store) :
    (transferSol env req store).2 = store ∨
      ∃ sid s', (s'.status = "sol_received" ∨ s'.status = "sol_transferred") ∧
        (transferSol env req store).2 = store.set sid s' := by
  unfold transferSol
  dsimp only
  repeat' first
    | exact Or.inl rfl
    | exact Or.inr ⟨_, _, Or.inl rfl, rfl⟩
    | exact Or.inr ⟨_, _, Or.inr rfl, rfl⟩
    | split

theorem swapTokens_store (env : SwapEnv) (req : SwapRequest) (store : Store) :
    (swapTokens env req store).2 = store ∨
      ∃ sid s', s'.status = "completed" ∧
        (swapTokens env req store).2 = store.set sid s' := by
  unfold swapTokens
  dsimp only
  repeat' first
    | exact Or.inl rfl
    | exact Or.inr ⟨_, _, rfl, rfl⟩
    | split

theorem terminal_not_reset {st : String} (h : terminalStatus st = true) :
    st ≠ "created" ∧ st ≠ "payment_completed" := by
  have h' : (st = "sol_transferred" ∨ st = "token_swap_completed") ∨ st = "error" := by
    simpa [terminalStatus, Bool.or_eq_true, beq_iff_eq] using h
  rcases h' with (h1 | h1) | h1 <;> subst h1 <;> exact ⟨by decide, by decide⟩

/-- One endpoint call never writes `created` or `payment_completed`
into an existing store entry, and never deletes an entry: if the
session at `id` exists with a status other than `created` and
`payment_completed`, the same holds after the call (with the freshness
assumption `freshIdFor` for the id generated by
`create-checkout-session`). -/
theorem stepStore_no_reset (call : ApiCall) (store : Store) (id : String)
    (sess : PaymentSession)
    (hfresh : freshIdFor call store)
    (hget : store.get id = some sess)
    (h1 : sess.status ≠ "created") (h2 : sess.status ≠ "payment_completed") :
    ∃ sess', (stepStore call store).get id = some sess' ∧
      sess'.status ≠ "created" ∧ sess'.status ≠ "payment_completed" := by
  cases call with
  | createCheckout env req =>
    simp only [stepStore]
    simp only [freshIdFor] at hfresh
    rcases createCheckout_store env req store with h | ⟨rec, h⟩
    · rw [h]
      exact ⟨sess, hget, h1, h2⟩
    · rw [h, Store.get_set]
      by_cases hid : env.uniqueSessionId = id
      · rw [hid, hget] at hfresh
        simp at hfresh
      · rw [if_neg hid]
        exact ⟨sess, hget, h1, h2⟩
  | checkSuccess q =>
    simp only [stepStore, paymentSuccess_store]
    exact ⟨sess, hget, h1, h2⟩
  | checkStatus env sid =>
    simp only [stepStore]
    rw [paymentStatus_store]
    exact ⟨sess, hget, h1, h2⟩
  | transfer env req =>
    simp only [stepStore]
    rcases transferSol_store env req store with h | ⟨sid, s', hs, h⟩
    · rw [h]
      exact ⟨sess, hget, h1, h2⟩
    · rw [h, Store.get_set]
      by_cases hid : sid = id
      · rw [if_pos hid]
        refine ⟨s', rfl, ?_, ?_⟩ <;> rcases hs with h3 | h3 <;> rw [h3] <;> decide
      · rw [if_neg hid]
        exact ⟨sess, hget, h1, h2⟩
  | swap env req =>
    simp only [stepStore]
    rcases swapTokens_store env req store with h | ⟨sid, s', hs, h⟩
    · rw [h]
      exact ⟨sess, hget, h1, h2⟩
    · rw [h, Store.get_set]
      by_cases hid : sid = id
      · rw [if_pos hid]
        refine ⟨s', rfl, ?_, ?_⟩ <;> rw [hs] <;> decide
      · rw [if_neg hid]
        exact ⟨sess, hget, h1, h2⟩

/-- Whole-trace invariant: along any sequence of endpoint calls, a
store entry whose status is neither `created` nor `payment_completed`
keeps existing and never takes either of those statuses. -/
theorem runCalls_no_reset (calls : List ApiCall) (store : Store) (id : String)
    (sess : PaymentSession)
    (hfresh : freshRun calls store)
    (hget : store.get id = some sess)
    (h1 : sess.status ≠ "created") (h2 : sess.status ≠ "payment_completed") :
    ∃ sess', (runCalls calls store).get id = some sess' ∧
      sess'.status ≠ "created" ∧ sess'.status ≠ "payment_completed" := by
  induction calls generalizing store sess with
  | nil => exact ⟨sess, hget, h1, h2⟩
  | cons c cs ih =>
    obtain ⟨hf, hfs⟩ := hfresh
    obtain ⟨sess1, hg1, h11, h12⟩ := stepStore_no_reset c store id sess hf hget h1 h2
    exact ih (stepStore c store) sess1 hfs hg1 h11 h12

/-- C1: once a stored session is in a terminal status
(`sol_transferred`, `token_swap_completed`, `error`), no subsequent
sequence of calls to the five endpoints — of any length, in any order,
with any collaborator answers — ever brings that session id back to
status `created` or `payment_completed` (quantifying over every call
list covers every later point of the trace; the session-id freshness
of `create-checkout-session` is assumed call-by-call via `freshRun`). -/
theorem claim1 (calls : List ApiCall) (store : Store) (id : String)
    (sess sess' : PaymentSession)
    (hfresh : freshRun calls store)
    (hget : store.get id = some sess)
    (hterm : terminalStatus sess.status = true)
    (hget' : (runCalls calls store).get id = some sess') :
    sess'.status ≠ "created" ∧ sess'.status ≠ "payment_completed" := by
  obtain ⟨h1, h2⟩ := terminal_not_reset hterm
  obtain ⟨s2, hg2, hb1, hb2⟩ := runCalls_no_reset calls store id sess hfresh hget h1 h2
  rw [hget'] at hg2
  obtain rfl : sess' = s2 := Option.some.inj hg2
  exact ⟨hb1, hb2⟩

/-- Witness for C1: a three-call trace over a store holding a session
in terminal status `sol_transferred`. -/
theorem claim1_witness :
    sampleTerminalSession.status ≠ "created" ∧
      sampleTerminalSession.status ≠ "payment_completed" :=
  claim1
    [.checkSuccess {}, .checkStatus ⟨.error "rpc down"⟩ "s1",
      .checkSuccess { session_id := some "s1" }]
    [("s1", sampleTerminalSession)] "s1" sampleTerminalSession sampleTerminalSession
    ⟨trivial, trivial, trivial, trivial⟩ rfl (by decide) rfl
